import Mathlib

/-!
Verification of the `llm-eduhub` repository against its natural-language
specification.

Part 1 embeds the chat session state store (`src/lib/stores/chat-store.ts`):
the message data model, the zustand store state, each action (which in the
source performs a shallow-merge `set` of the listed fields into the state),
and the derived selector `selectIsProcessing`.

Part 2 embeds the API-key access layer (`src/lib/db/api-keys.ts`).

JavaScript conventions are mapped as follows: an optional field `f?: T`
becomes `Option T`; `string | null` becomes `Option String`; the truthiness
test on an optional boolean (`messageData.isStreaming ? ...`) holds exactly
for `some true`; the truthiness test on an optional string
(`updates.key_value && ...`) holds exactly for `some v` with `v ≠ ""`.
-/

namespace ChatStore

/-- `MessageAttachment` from `chat-store.ts`: a file attachment reference. -/
structure MessageAttachment where
  id : String
  name : String
  size : Nat
  type : String
  upload_file_id : String
deriving DecidableEq, Repr

/-- `ChatMessage` from `chat-store.ts`. The optional `error` field may hold
`string | null`, hence `Option (Option String)`. -/
structure ChatMessage where
  id : String
  text : String
  isUser : Bool
  isStreaming : Option Bool
  wasManuallyStopped : Option Bool
  error : Option (Option String)
  attachments : Option (List MessageAttachment)
deriving DecidableEq, Repr

/-- `Omit<ChatMessage, 'id'>`: the argument of `addMessage`. -/
structure MessageData where
  text : String
  isUser : Bool
  isStreaming : Option Bool
  wasManuallyStopped : Option Bool
  error : Option (Option String)
  attachments : Option (List MessageAttachment)
deriving DecidableEq, Repr

/-- `const newMessage = { id, ...messageData }` in `addMessage`. -/
def mkMessage (id : String) (d : MessageData) : ChatMessage :=
  { id := id, text := d.text, isUser := d.isUser, isStreaming := d.isStreaming,
    wasManuallyStopped := d.wasManuallyStopped, error := d.error,
    attachments := d.attachments }

/-- The state fields of the `ChatState` store. -/
structure ChatState where
  messages : List ChatMessage
  streamingMessageId : Option String
  isWaitingForResponse : Bool
  currentConversationId : Option String
  currentTaskId : Option String
deriving DecidableEq, Repr

/-- The initial state of the store (`create<ChatState>` literal). -/
def initialState : ChatState :=
  { messages := [], streamingMessageId := none, isWaitingForResponse := false,
    currentConversationId := none, currentTaskId := none }

/-- `addMessage`: the source generates a fresh id
(`msg-${Date.now()}-${random}`) outside the `set` call; the embedding takes
that generated id as an explicit argument. The `set` appends the new message
and repoints `streamingMessageId` when `messageData.isStreaming` is truthy. -/
def addMessage (s : ChatState) (id : String) (d : MessageData) : ChatState :=
  { s with
    messages := s.messages ++ [mkMessage id d],
    streamingMessageId :=
      if d.isStreaming = some true then some id else s.streamingMessageId }

/-- `appendMessageChunk`: concatenates `chunk` onto the text of each message
whose id matches; all other fields and messages are untouched. -/
def appendMessageChunk (s : ChatState) (id : String) (chunk : String) : ChatState :=
  { s with
    messages := s.messages.map fun message =>
      if message.id = id then { message with text := message.text ++ chunk }
      else message }

/-- `finalizeStreamingMessage`: sets `isStreaming := false` on the matching
message and clears the pointer when it equals `id`, in one update. -/
def finalizeStreamingMessage (s : ChatState) (id : String) : ChatState :=
  { s with
    messages := s.messages.map fun message =>
      if message.id = id then { message with isStreaming := some false }
      else message,
    streamingMessageId :=
      if s.streamingMessageId = some id then none else s.streamingMessageId }

/-- `markAsManuallyStopped`: sets `wasManuallyStopped := true` and
`isStreaming := false` on the matching message and clears the pointer when it
equals `id`, in one update. -/
def markAsManuallyStopped (s : ChatState) (id : String) : ChatState :=
  { s with
    messages := s.messages.map fun message =>
      if message.id = id
      then { message with wasManuallyStopped := some true, isStreaming := some false }
      else message,
    streamingMessageId :=
      if s.streamingMessageId = some id then none else s.streamingMessageId }

/-- `setMessageError`: sets the `error` field on the matching message. -/
def setMessageError (s : ChatState) (id : String) (error : Option String) : ChatState :=
  { s with
    messages := s.messages.map fun message =>
      if message.id = id then { message with error := some error } else message }

/-- `clearMessages`: resets `messages` and `streamingMessageId`; the zustand
shallow merge leaves every other field as it was. -/
def clearMessages (s : ChatState) : ChatState :=
  { s with messages := [], streamingMessageId := none }

/-- `setIsWaitingForResponse`. -/
def setIsWaitingForResponse (s : ChatState) (status : Bool) : ChatState :=
  { s with isWaitingForResponse := status }

/-- `setCurrentConversationId`. -/
def setCurrentConversationId (s : ChatState) (conversationId : Option String) : ChatState :=
  { s with currentConversationId := conversationId }

/-- `setCurrentTaskId`. -/
def setCurrentTaskId (s : ChatState) (taskId : Option String) : ChatState :=
  { s with currentTaskId := taskId }

/-- `selectIsProcessing`:
`state.isWaitingForResponse || state.streamingMessageId !== null`. -/
def selectIsProcessing (s : ChatState) : Bool :=
  s.isWaitingForResponse || s.streamingMessageId.isSome

/-- One store operation, for reasoning about sequences of calls. The id
passed to `addMessage` stands for the id the source generates at that call. -/
inductive Op where
  | addMessage (id : String) (d : MessageData)
  | appendMessageChunk (id : String) (chunk : String)
  | finalizeStreamingMessage (id : String)
  | markAsManuallyStopped (id : String)
  | setMessageError (id : String) (error : Option String)
  | clearMessages
  | setIsWaitingForResponse (status : Bool)
  | setCurrentConversationId (conversationId : Option String)
  | setCurrentTaskId (taskId : Option String)
deriving DecidableEq, Repr

/-- Apply one operation to a state. -/
def applyOp (s : ChatState) : Op → ChatState
  | .addMessage id d => addMessage s id d
  | .appendMessageChunk id chunk => appendMessageChunk s id chunk
  | .finalizeStreamingMessage id => finalizeStreamingMessage s id
  | .markAsManuallyStopped id => markAsManuallyStopped s id
  | .setMessageError id error => setMessageError s id error
  | .clearMessages => clearMessages s
  | .setIsWaitingForResponse status => setIsWaitingForResponse s status
  | .setCurrentConversationId c => setCurrentConversationId s c
  | .setCurrentTaskId t => setCurrentTaskId s t

/-- Run a sequence of operations from the initial state. -/
def runOps (ops : List Op) : ChatState :=
  ops.foldl applyOp initialState

/-- The at-most-one-streaming property of the claim: no two distinct
messages in the list both have `isStreaming = true`. -/
def AtMostOneStreaming (msgs : List ChatMessage) : Prop :=
  ∀ m₁ ∈ msgs, ∀ m₂ ∈ msgs,
    m₁.isStreaming = some true → m₂.isStreaming = some true → m₁ = m₂

instance (msgs : List ChatMessage) : Decidable (AtMostOneStreaming msgs) := by
  unfold AtMostOneStreaming
  infer_instance

/-- The pointer invariant: a non-null `streamingMessageId` names a message
present in `messages` with `isStreaming = true`. -/
def PointerInv (s : ChatState) : Prop :=
  ∀ i, s.streamingMessageId = some i →
    ∃ m ∈ s.messages, m.id = i ∧ m.isStreaming = some true

/-- Mapping a function that fixes every non-matching message over a list with
no matching message is the identity. -/
theorem map_eq_self_of_no_match {l : List ChatMessage} {id : String}
    {f : ChatMessage → ChatMessage}
    (hf : ∀ m, m.id ≠ id → f m = m) (h : ∀ m ∈ l, m.id ≠ id) :
    l.map f = l := by
  induction l with
  | nil => rfl
  | cons x xs ih =>
    rw [List.map_cons, hf x (h x (List.mem_cons_self x xs)),
      ih fun m hm => h m (List.mem_cons_of_mem x hm)]

/-- C6: `clearMessages` empties `messages`, nulls `streamingMessageId`, and
leaves `isWaitingForResponse`, `currentConversationId` and `currentTaskId`
exactly as they were. -/
theorem clearMessages_spec (s : ChatState) :
    (clearMessages s).messages = [] ∧
    (clearMessages s).streamingMessageId = none ∧
    (clearMessages s).isWaitingForResponse = s.isWaitingForResponse ∧
    (clearMessages s).currentConversationId = s.currentConversationId ∧
    (clearMessages s).currentTaskId = s.currentTaskId := by
  simp [clearMessages]

/-- C7: `selectIsProcessing` returns true iff `isWaitingForResponse` is true
or `streamingMessageId` is non-null. -/
theorem selectIsProcessing_spec (s : ChatState) :
    selectIsProcessing s = true ↔
      (s.isWaitingForResponse = true ∨ s.streamingMessageId ≠ none) := by
  simp [selectIsProcessing, Option.isSome_iff_ne_none]

/-- C6 witness: the theorem applied at a concrete state with a conversation
and task id, which survive the clear. -/
theorem clearMessages_spec_witness :
    (clearMessages
      { initialState with
        currentConversationId := some "conv", currentTaskId := some "task",
        streamingMessageId := some "A" }).currentTaskId = some "task" :=
  (clearMessages_spec _).2.2.2.2

/-- C7 witness: the theorem applied at a concrete waiting state. -/
theorem selectIsProcessing_spec_witness :
    selectIsProcessing { initialState with isWaitingForResponse := true } = true :=
  (selectIsProcessing_spec _).mpr (Or.inl rfl)

/-- C3: `finalizeStreamingMessage s id` sets `isStreaming := false` on each
message whose id matches, leaves every other message and field of the list
unchanged (pointwise), does nothing to `messages` when no id matches, clears
`streamingMessageId` when it currently equals `id` and leaves it unchanged
otherwise, and touches no other store field. -/
theorem finalizeStreamingMessage_spec (s : ChatState) (id : String) :
    (∀ i : Nat, (finalizeStreamingMessage s id).messages[i]? =
      s.messages[i]?.map fun m =>
        if m.id = id then { m with isStreaming := some false } else m) ∧
    ((∀ m ∈ s.messages, m.id ≠ id) →
      (finalizeStreamingMessage s id).messages = s.messages) ∧
    (s.streamingMessageId = some id →
      (finalizeStreamingMessage s id).streamingMessageId = none) ∧
    (s.streamingMessageId ≠ some id →
      (finalizeStreamingMessage s id).streamingMessageId = s.streamingMessageId) ∧
    (finalizeStreamingMessage s id).isWaitingForResponse = s.isWaitingForResponse ∧
    (finalizeStreamingMessage s id).currentConversationId = s.currentConversationId ∧
    (finalizeStreamingMessage s id).currentTaskId = s.currentTaskId := by
  refine ⟨fun i => ?_, fun h => ?_, fun h => ?_, fun h => ?_, rfl, rfl, rfl⟩
  · simp [finalizeStreamingMessage, List.getElem?_map]
  · exact map_eq_self_of_no_match (fun m hm => by simp [hm]) h
  · simp [finalizeStreamingMessage, h]
  · simp [finalizeStreamingMessage, h]

/-- C3 witness: the theorem applied at a concrete state and id. -/
theorem finalizeStreamingMessage_spec_witness :
    (finalizeStreamingMessage
        { initialState with
          messages := [{ id := "A", text := "t", isUser := false,
                         isStreaming := some true, wasManuallyStopped := none,
                         error := none, attachments := none }],
          streamingMessageId := some "A" } "A").streamingMessageId = none :=
  (finalizeStreamingMessage_spec _ "A").2.2.1 rfl

/-- C4: `markAsManuallyStopped s id` sets `wasManuallyStopped := true` and
`isStreaming := false` together in the one produced state, leaves every other
message and field unchanged (pointwise), does nothing to `messages` when no
id matches, clears `streamingMessageId` when it equals `id`; and when `id`
was the streaming pointer and `isWaitingForResponse` is false, the derived
`selectIsProcessing` goes from true before the call to false after it. -/
theorem markAsManuallyStopped_spec (s : ChatState) (id : String) :
    (∀ i : Nat, (markAsManuallyStopped s id).messages[i]? =
      s.messages[i]?.map fun m =>
        if m.id = id
        then { m with wasManuallyStopped := some true, isStreaming := some false }
        else m) ∧
    ((∀ m ∈ s.messages, m.id ≠ id) →
      (markAsManuallyStopped s id).messages = s.messages) ∧
    (s.streamingMessageId = some id →
      (markAsManuallyStopped s id).streamingMessageId = none) ∧
    (s.streamingMessageId = some id → s.isWaitingForResponse = false →
      selectIsProcessing s = true ∧
      selectIsProcessing (markAsManuallyStopped s id) = false) := by
  refine ⟨fun i => ?_, fun h => ?_, fun h => ?_, fun h hw => ⟨?_, ?_⟩⟩
  · simp [markAsManuallyStopped, List.getElem?_map]
  · exact map_eq_self_of_no_match (fun m hm => by simp [hm]) h
  · simp [markAsManuallyStopped, h]
  · simp [selectIsProcessing, h]
  · simp [selectIsProcessing, markAsManuallyStopped, h, hw]

/-- C4 witness: the theorem applied at a concrete state and id. -/
theorem markAsManuallyStopped_spec_witness :
    selectIsProcessing
        { initialState with
          messages := [{ id := "A", text := "t", isUser := false,
                         isStreaming := some true, wasManuallyStopped := none,
                         error := none, attachments := none }],
          streamingMessageId := some "A" } = true ∧
    selectIsProcessing
      (markAsManuallyStopped
        { initialState with
          messages := [{ id := "A", text := "t", isUser := false,
                         isStreaming := some true, wasManuallyStopped := none,
                         error := none, attachments := none }],
          streamingMessageId := some "A" } "A") = false :=
  (markAsManuallyStopped_spec _ "A").2.2.2 rfl rfl

/-- C5: `appendMessageChunk s id chunk` appends `chunk` to the right of the
text of each message whose id matches, changes no other field of any message
and no other store field, is a no-op on `messages` when no id matches, and
two successive appends of `a` then `b` to the same id append `a ++ b`,
in that order. -/
theorem appendMessageChunk_spec (s : ChatState) (id : String) (chunk : String) :
    (∀ i : Nat, (appendMessageChunk s id chunk).messages[i]? =
      s.messages[i]?.map fun m =>
        if m.id = id then { m with text := m.text ++ chunk } else m) ∧
    (appendMessageChunk s id chunk).streamingMessageId = s.streamingMessageId ∧
    (appendMessageChunk s id chunk).isWaitingForResponse = s.isWaitingForResponse ∧
    (appendMessageChunk s id chunk).currentConversationId = s.currentConversationId ∧
    (appendMessageChunk s id chunk).currentTaskId = s.currentTaskId ∧
    ((∀ m ∈ s.messages, m.id ≠ id) →
      (appendMessageChunk s id chunk).messages = s.messages) ∧
    (∀ a b : String, ∀ i : Nat,
      (appendMessageChunk (appendMessageChunk s id a) id b).messages[i]? =
        s.messages[i]?.map fun m =>
          if m.id = id then { m with text := m.text ++ a ++ b } else m) := by
  refine ⟨fun i => ?_, rfl, rfl, rfl, rfl, fun h => ?_, fun a b i => ?_⟩
  · simp [appendMessageChunk, List.getElem?_map]
  · exact map_eq_self_of_no_match (fun m hm => by simp [hm]) h
  · simp only [appendMessageChunk, List.getElem?_map, Option.map_map]
    cases s.messages[i]? with
    | none => rfl
    | some m =>
      simp only [Option.map_some', Function.comp_apply]
      by_cases hm : m.id = id <;> simp [hm]

/-- C5 witness: the theorem applied at a concrete state, id and chunks. -/
theorem appendMessageChunk_spec_witness :
    (appendMessageChunk
      (appendMessageChunk
        { initialState with
          messages := [{ id := "A", text := "t", isUser := false,
                         isStreaming := some true, wasManuallyStopped := none,
                         error := none, attachments := none }] } "A" "a")
      "A" "b").messages[0]? =
      some { id := "A", text := "tab", isUser := false,
             isStreaming := some true, wasManuallyStopped := none,
             error := none, attachments := none } := by
  rw [(appendMessageChunk_spec
    { initialState with
      messages := [{ id := "A", text := "t", isUser := false,
                     isStreaming := some true, wasManuallyStopped := none,
                     error := none, attachments := none }] } "A" "x").2.2.2.2.2.2 "a" "b" 0]
  rfl

/-- Assistant-message data with `isStreaming = true`, as produced by the
chat UI when it adds the placeholder for a streaming response. -/
def streamingData : MessageData :=
  { text := "", isUser := false, isStreaming := some true,
    wasManuallyStopped := none, error := none, attachments := none }

/-- C1 counterexample: two `addMessage` calls with `isStreaming = true` and
distinct generated ids, with no finalize/stop in between, leave two distinct
messages that both have `isStreaming = true`: `addMessage` overwrites only
the `streamingMessageId` pointer and never clears the previous message's
flag. -/
theorem two_streaming_adds_violate_atMostOneStreaming :
    ¬ AtMostOneStreaming
        (runOps [Op.addMessage "msg-1" streamingData,
                 Op.addMessage "msg-2" streamingData]).messages := by
  intro h
  have h12 := h (mkMessage "msg-1" streamingData) (by simp [runOps, applyOp,
      addMessage, initialState])
    (mkMessage "msg-2" streamingData) (by simp [runOps, applyOp,
      addMessage, initialState]) rfl rfl
  exact absurd (congrArg ChatMessage.id h12) (by decide)

/-- A function on messages that can only turn streaming off (never on)
preserves the at-most-one-streaming property under `map`. -/
theorem atMostOneStreaming_map {f : ChatMessage → ChatMessage}
    (hf : ∀ m, (f m).isStreaming = some true → m.isStreaming = some true)
    {l : List ChatMessage} (h : AtMostOneStreaming l) :
    AtMostOneStreaming (l.map f) := by
  intro a ha b hb hsa hsb
  rcases List.mem_map.mp ha with ⟨ma, hma, rfl⟩
  rcases List.mem_map.mp hb with ⟨mb, hmb, rfl⟩
  rw [h ma hma mb hmb (hf _ hsa) (hf _ hsb)]

/-- The side condition under which one operation keeps the
at-most-one-streaming property: a streaming `addMessage` must be issued while
no message in the current state is streaming; every other operation is
unconstrained. -/
def OpStreamingOk (s : ChatState) : Op → Prop
  | .addMessage _ d =>
      d.isStreaming = some true → ∀ m ∈ s.messages, m.isStreaming ≠ some true
  | _ => True

/-- Each operation preserves the at-most-one-streaming property, a streaming
`addMessage` under the side condition that nothing currently streams. -/
theorem applyOp_preserves_atMostOneStreaming (s : ChatState) (op : Op)
    (h : AtMostOneStreaming s.messages) (hop : OpStreamingOk s op) :
    AtMostOneStreaming (applyOp s op).messages := by
  cases op with
  | addMessage id d =>
    intro a ha b hb hsa hsb
    simp only [applyOp, addMessage, List.mem_append, List.mem_singleton] at ha hb
    by_cases hd : d.isStreaming = some true
    · have hnone := hop hd
      have ha2 : a = mkMessage id d := by
        rcases ha with ha | ha
        · exact absurd hsa (hnone a ha)
        · exact ha
      have hb' : b = mkMessage id d := by
        rcases hb with hb | hb
        · exact absurd hsb (hnone b hb)
        · exact hb
      rw [ha2, hb']
    · have ha' : a ∈ s.messages := by
        rcases ha with ha | ha
        · exact ha
        · rw [ha] at hsa; exact absurd hsa hd
      have hb' : b ∈ s.messages := by
        rcases hb with hb | hb
        · exact hb
        · rw [hb] at hsb; exact absurd hsb hd
      exact h a ha' b hb' hsa hsb
  | appendMessageChunk id chunk =>
    refine atMostOneStreaming_map (fun m hm => ?_) h
    by_cases hid : m.id = id
    · simpa [hid] using hm
    · simpa [hid] using hm
  | finalizeStreamingMessage id =>
    refine atMostOneStreaming_map (fun m hm => ?_) h
    by_cases hid : m.id = id
    · simp [hid] at hm
    · simpa [hid] using hm
  | markAsManuallyStopped id =>
    refine atMostOneStreaming_map (fun m hm => ?_) h
    by_cases hid : m.id = id
    · simp [hid] at hm
    · simpa [hid] using hm
  | setMessageError id error =>
    refine atMostOneStreaming_map (fun m hm => ?_) h
    by_cases hid : m.id = id
    · simpa [hid] using hm
    · simpa [hid] using hm
  | clearMessages => intro a ha; simp [applyOp, clearMessages] at ha
  | setIsWaitingForResponse status => exact h
  | setCurrentConversationId c => exact h
  | setCurrentTaskId t => exact h

/-- The trace-level side condition: starting from `s`, every streaming
`addMessage` in the sequence is issued while no message is streaming. -/
def TraceStreamingOk : ChatState → List Op → Prop
  | _, [] => True
  | s, op :: rest => OpStreamingOk s op ∧ TraceStreamingOk (applyOp s op) rest

/-- Folding a well-separated trace preserves the property. -/
theorem foldl_preserves_atMostOneStreaming (ops : List Op) :
    ∀ s : ChatState, AtMostOneStreaming s.messages → TraceStreamingOk s ops →
      AtMostOneStreaming (ops.foldl applyOp s).messages := by
  induction ops with
  | nil => exact fun s h _ => h
  | cons op rest ih =>
    intro s h hok
    exact ih (applyOp s op)
      (applyOp_preserves_atMostOneStreaming s op h hok.1) hok.2

/-- C1 amended: along every sequence of operations from the initial state in
which each `addMessage` with `isStreaming = true` is issued only while no
message is currently streaming, at most one message has `isStreaming = true`
at every instant. -/
theorem atMostOneStreaming_of_separated_trace (ops : List Op)
    (hok : TraceStreamingOk initialState ops) :
    AtMostOneStreaming (runOps ops).messages :=
  foldl_preserves_atMostOneStreaming ops initialState
    (fun a ha => by simp [initialState] at ha) hok

/-- C1 amended witness: a separated trace — add streaming message 1,
finalize it, then add streaming message 2 — satisfies the invariant. -/
theorem atMostOneStreaming_of_separated_trace_witness :
    AtMostOneStreaming
      (runOps [Op.addMessage "msg-1" streamingData,
               Op.finalizeStreamingMessage "msg-1",
               Op.addMessage "msg-2" streamingData]).messages :=
  atMostOneStreaming_of_separated_trace _ (by
    refine ⟨?_, trivial, ?_, trivial⟩
    · intro _ m hm
      simp [initialState] at hm
    · intro _ m hm
      simp [applyOp, addMessage, finalizeStreamingMessage, initialState,
        mkMessage, streamingData] at hm
      simp [hm])

/-- Each single store operation takes a state satisfying the pointer
invariant to a state satisfying it. -/
theorem applyOp_preserves_pointerInv (s : ChatState) (op : Op)
    (h : PointerInv s) : PointerInv (applyOp s op) := by
  cases op with
  | addMessage id d =>
    intro i hi
    simp only [applyOp, addMessage] at hi ⊢
    by_cases hd : d.isStreaming = some true
    · rw [if_pos hd] at hi
      refine ⟨mkMessage id d, by simp, ?_, by simpa [mkMessage] using hd⟩
      exact Option.some_inj.mp hi
    · rw [if_neg hd] at hi
      rcases h i hi with ⟨m, hm, hmi, hms⟩
      exact ⟨m, List.mem_append_left _ hm, hmi, hms⟩
  | appendMessageChunk id chunk =>
    intro i hi
    rcases h i hi with ⟨m, hm, hmi, hms⟩
    by_cases hid : m.id = id
    · exact ⟨{ m with text := m.text ++ chunk },
        List.mem_map.mpr ⟨m, hm, by rw [if_pos hid]⟩, hmi, hms⟩
    · exact ⟨m, List.mem_map.mpr ⟨m, hm, by rw [if_neg hid]⟩, hmi, hms⟩
  | finalizeStreamingMessage id =>
    intro i hi
    simp only [applyOp, finalizeStreamingMessage] at hi ⊢
    by_cases hp : s.streamingMessageId = some id
    · rw [if_pos hp] at hi
      exact absurd hi (by simp)
    · rw [if_neg hp] at hi
      rcases h i hi with ⟨m, hm, hmi, hms⟩
      have hmid : m.id ≠ id := fun he => hp (by rw [hi, ← hmi, he])
      exact ⟨m, List.mem_map.mpr ⟨m, hm, by simp [hmid]⟩, hmi, hms⟩
  | markAsManuallyStopped id =>
    intro i hi
    simp only [applyOp, markAsManuallyStopped] at hi ⊢
    by_cases hp : s.streamingMessageId = some id
    · rw [if_pos hp] at hi
      exact absurd hi (by simp)
    · rw [if_neg hp] at hi
      rcases h i hi with ⟨m, hm, hmi, hms⟩
      have hmid : m.id ≠ id := fun he => hp (by rw [hi, ← hmi, he])
      exact ⟨m, List.mem_map.mpr ⟨m, hm, by simp [hmid]⟩, hmi, hms⟩
  | setMessageError id error =>
    intro i hi
    rcases h i hi with ⟨m, hm, hmi, hms⟩
    by_cases hid : m.id = id
    · exact ⟨{ m with error := some error },
        List.mem_map.mpr ⟨m, hm, by rw [if_pos hid]⟩, hmi, hms⟩
    · exact ⟨m, List.mem_map.mpr ⟨m, hm, by rw [if_neg hid]⟩, hmi, hms⟩
  | clearMessages =>
    intro i hi
    exact absurd hi (by simp [applyOp, clearMessages])
  | setIsWaitingForResponse status => exact h
  | setCurrentConversationId c => exact h
  | setCurrentTaskId t => exact h

/-- Folding any trace preserves the pointer invariant. -/
theorem foldl_preserves_pointerInv (ops : List Op) :
    ∀ s : ChatState, PointerInv s → PointerInv (ops.foldl applyOp s) := by
  induction ops with
  | nil => exact fun _ h => h
  | cons op rest ih =>
    exact fun s h => ih _ (applyOp_preserves_pointerInv s op h)

/-- C2: after every sequence of operations from the initial state, a
non-null `streamingMessageId` names a message present in `messages` with
`isStreaming = true`; and every single operation takes a state satisfying
this invariant to a state satisfying it (the pointer is cleared in the same
produced state as the flag). -/
theorem pointerInv_spec :
    (∀ ops : List Op, PointerInv (runOps ops)) ∧
    (∀ (s : ChatState) (op : Op), PointerInv s → PointerInv (applyOp s op)) :=
  ⟨fun ops => foldl_preserves_pointerInv ops initialState
      (fun _ hi => by simp [initialState] at hi),
   applyOp_preserves_pointerInv⟩

/-- C2 witness: the invariant after a concrete trace, and one concrete
preservation step, both obtained from the theorem. -/
theorem pointerInv_spec_witness :
    PointerInv (runOps [Op.addMessage "msg-1" streamingData]) ∧
    PointerInv (applyOp initialState (Op.addMessage "msg-1" streamingData)) :=
  ⟨pointerInv_spec.1 _,
   pointerInv_spec.2 initialState _ (fun _ hi => by simp [initialState] at hi)⟩

end ChatStore

namespace ApiKeys

/-- Modelled from the spec: the `ApiKey` row type is imported from
`../types/database`, which is not among the sources; §6 of the spec lists the
table's columns as id, service_instance_id, is_default, key_value,
created_at, updated_at. -/
structure ApiKey where
  id : String
  service_instance_id : String
  is_default : Bool
  key_value : String
  created_at : String
  updated_at : String
deriving DecidableEq, Repr

/-- `Omit<ApiKey, 'id' | 'created_at' | 'updated_at'>`: the argument of
`createApiKey`. -/
structure NewApiKey where
  service_instance_id : String
  is_default : Bool
  key_value : String
deriving DecidableEq, Repr

/-- `Partial<Omit<ApiKey, 'id' | 'created_at' | 'updated_at'>>`: the
`updates` argument of `updateApiKey`; every field optional. -/
structure ApiKeyUpdates where
  service_instance_id : Option String
  is_default : Option Bool
  key_value : Option String
deriving DecidableEq, Repr

/-- A resolved supabase postgrest response `{ data, error }`. The source
only ever inspects `error` for truthiness and `data` for presence, so the
error payload is kept as an opaque string. -/
structure DbResult (α : Type) where
  data : Option α
  error : Option String
deriving DecidableEq, Repr

/-- The collaborators of `api-keys.ts`: the `API_ENCRYPTION_KEY` environment
variable, the encrypt/decrypt collaborator from `../utils/encryption`
(opaque per the spec; it may raise a fault, hence `Except`), and the supabase
query builder chains used by the module, one per call shape, each resolving
to a `{ data, error }` response (the source never treats a resolved query as
throwing; postgrest failures arrive as the `error` field). -/
structure Env where
  apiEncryptionKey : Option String
  encryptApiKey : String → String → Except String String
  decryptApiKey : String → String → Except String String
  selectDefaultKey : String → DbResult ApiKey
  insertApiKey : NewApiKey → DbResult ApiKey
  updateApiKeyRow : String → ApiKeyUpdates → DbResult ApiKey
  deleteApiKeyRow : String → Option String
  selectKeyValue : String → DbResult String
  rpcIncrementUsage : String → Option String

/-- The `if (error || !data) { ... return null } return data` pattern shared
by the query-returning operations. -/
def dbOrNull {α : Type} (r : DbResult α) : Option α :=
  match r.error, r.data with
  | some _, _ => none
  | none, none => none
  | none, some d => some d

/-- `getApiKeyByServiceInstance`: fetch the default key of a service
instance, null on error or missing row. -/
def getApiKeyByServiceInstance (env : Env) (serviceInstanceId : String) :
    Option ApiKey :=
  dbOrNull (env.selectDefaultKey serviceInstanceId)

/-- `createApiKey`. `Except.error` models an uncaught thrown fault
propagating to the caller (the call to `encryptApiKey` is not wrapped in
try/catch); `Except.ok none` models `return null`. -/
def createApiKey (env : Env) (apiKey : NewApiKey) (isEncrypted : Bool) :
    Except String (Option ApiKey) :=
  let keyValueStep : Except String (Option String) :=
    if isEncrypted = false then
      match env.apiEncryptionKey with
      | none => Except.ok none
      | some masterKey =>
        match env.encryptApiKey apiKey.key_value masterKey with
        | Except.error e => Except.error e
        | Except.ok v => Except.ok (some v)
    else Except.ok (some apiKey.key_value)
  match keyValueStep with
  | Except.error e => Except.error e
  | Except.ok none => Except.ok none
  | Except.ok (some keyValue) =>
    Except.ok (dbOrNull (env.insertApiKey { apiKey with key_value := keyValue }))

/-- `updateApiKey`. The source guards encryption with the JavaScript
truthiness test `updates.key_value && !isEncrypted`, which fails for an
absent field and for the empty string; an uncaught fault from
`encryptApiKey` propagates. -/
def updateApiKey (env : Env) (id : String) (updates : ApiKeyUpdates)
    (isEncrypted : Bool) : Except String (Option ApiKey) :=
  let updatesStep : Except String (Option ApiKeyUpdates) :=
    match updates.key_value with
    | some v =>
      if v != "" && !isEncrypted then
        match env.apiEncryptionKey with
        | none => Except.ok none
        | some masterKey =>
          match env.encryptApiKey v masterKey with
          | Except.error e => Except.error e
          | Except.ok c => Except.ok (some { updates with key_value := some c })
      else Except.ok (some updates)
    | none => Except.ok (some updates)
  match updatesStep with
  | Except.error e => Except.error e
  | Except.ok none => Except.ok none
  | Except.ok (some ups) => Except.ok (dbOrNull (env.updateApiKeyRow id ups))

/-- `deleteApiKey`: false on backend error, true otherwise. -/
def deleteApiKey (env : Env) (id : String) : Bool :=
  match env.deleteApiKeyRow id with
  | some _ => false
  | none => true

/-- `getDecryptedApiKey`: fetch `key_value` by id, then decrypt inside a
try/catch; null on lookup failure, missing master key, or a caught decrypt
fault. -/
def getDecryptedApiKey (env : Env) (apiKeyId : String) : Option String :=
  match dbOrNull (env.selectKeyValue apiKeyId) with
  | none => none
  | some keyValue =>
    match env.apiEncryptionKey with
    | none => none
    | some masterKey =>
      match env.decryptApiKey keyValue masterKey with
      | Except.error _ => none
      | Except.ok v => some v

/-- `incrementApiKeyUsage`: false on rpc error, true otherwise. -/
def incrementApiKeyUsage (env : Env) (id : String) : Bool :=
  match env.rpcIncrementUsage id with
  | some _ => false
  | none => true

/-- A failed or empty response collapses to null. -/
theorem dbOrNull_of_error {α : Type} {r : DbResult α} (h : r.error ≠ none) :
    dbOrNull r = none := by
  rcases he : r.error with _ | e
  · exact absurd he h
  · simp [dbOrNull, he]

/-- A response with no data collapses to null. -/
theorem dbOrNull_of_data_none {α : Type} {r : DbResult α} (h : r.data = none) :
    dbOrNull r = none := by
  cases he : r.error <;> simp [dbOrNull, he, h]

/-- Unfolding of `createApiKey` in the plaintext (`isEncrypted = false`)
case. -/
theorem createApiKey_false_eq (env : Env) (k : NewApiKey) :
    createApiKey env k false =
      (match env.apiEncryptionKey with
       | none => Except.ok none
       | some mk =>
         match env.encryptApiKey k.key_value mk with
         | Except.error e => Except.error e
         | Except.ok c =>
           Except.ok (dbOrNull (env.insertApiKey { k with key_value := c }))) := by
  unfold createApiKey
  cases env.apiEncryptionKey with
  | none => rfl
  | some mk =>
    dsimp only
    cases env.encryptApiKey k.key_value mk <;> rfl

/-- Unfolding of `updateApiKey` in the plaintext case with a truthy
(present, non-empty) `key_value`. -/
theorem updateApiKey_false_truthy_eq (env : Env) (i : String)
    (ups : ApiKeyUpdates) (v : String) (hv : ups.key_value = some v)
    (hne : v ≠ "") :
    updateApiKey env i ups false =
      (match env.apiEncryptionKey with
       | none => Except.ok none
       | some mk =>
         match env.encryptApiKey v mk with
         | Except.error e => Except.error e
         | Except.ok c =>
           Except.ok (dbOrNull
             (env.updateApiKeyRow i { ups with key_value := some c }))) := by
  have hbne : (v != "") = true := by simpa using hne
  unfold updateApiKey
  rw [hv]
  simp only [hbne, Bool.not_false, Bool.and_self, if_true]
  cases env.apiEncryptionKey with
  | none => rfl
  | some mk =>
    dsimp only
    cases env.encryptApiKey v mk <;> rfl

/-- A sample stored row, used for the concrete environments below. -/
def sampleRow : ApiKey :=
  { id := "k1", service_instance_id := "svc-1", is_default := true,
    key_value := "stored", created_at := "t0", updated_at := "t1" }

/-- The `createApiKey` input used by the concrete scenarios. -/
def newKeyInput : NewApiKey :=
  { service_instance_id := "svc-1", is_default := true, key_value := "plain" }

/-- A healthy concrete environment: master key configured, encryption and
decryption by tagging, every query succeeding; the insert and update
responses echo back the written `key_value` so that the value handed to the
backend is observable in the result. -/
def okEnv : Env :=
  { apiEncryptionKey := some "master",
    encryptApiKey := fun v k => Except.ok ("enc:" ++ v ++ ":" ++ k),
    decryptApiKey := fun v k => Except.ok ("dec:" ++ v ++ ":" ++ k),
    selectDefaultKey := fun _ => { data := some sampleRow, error := none },
    insertApiKey := fun row =>
      { data := some { sampleRow with key_value := row.key_value }, error := none },
    updateApiKeyRow := fun _ ups =>
      { data := some { sampleRow with
          key_value := ups.key_value.getD sampleRow.key_value }, error := none },
    deleteApiKeyRow := fun _ => none,
    selectKeyValue := fun _ => { data := some "stored", error := none },
    rpcIncrementUsage := fun _ => none }

/-- The healthy environment with every backend call failing. -/
def errorBackendEnv : Env :=
  { okEnv with
    selectDefaultKey := fun _ => { data := none, error := some "db down" },
    insertApiKey := fun _ => { data := none, error := some "db down" },
    updateApiKeyRow := fun _ _ => { data := none, error := some "db down" },
    deleteApiKeyRow := fun _ => some "db down",
    selectKeyValue := fun _ => { data := none, error := some "db down" },
    rpcIncrementUsage := fun _ => some "db down" }

/-- The healthy environment without `API_ENCRYPTION_KEY`. -/
def noMasterKeyEnv : Env :=
  { okEnv with apiEncryptionKey := none }

/-- The healthy environment with an encrypt collaborator that raises. -/
def faultyEncryptEnv : Env :=
  { okEnv with encryptApiKey := fun _ _ => Except.error "boom" }

/-- C8 counterexample: with the master key configured and the encrypt
collaborator raising a fault, `createApiKey` on a plaintext key propagates
the thrown fault to its caller instead of degrading to the null sentinel:
the `encryptApiKey` call sits outside any try/catch. -/
theorem createApiKey_propagates_encrypt_fault :
    createApiKey faultyEncryptEnv newKeyInput false = Except.error "boom" := rfl

/-- When the truthiness guard `updates.key_value && !isEncrypted` fails —
absent `key_value`, empty `key_value`, or `isEncrypted = true` — `updateApiKey`
performs no encryption and hands the updates object to the backend unchanged;
its result is exactly the backend's response. -/
theorem updateApiKey_passthrough_eq (env : Env) (i : String)
    (ups : ApiKeyUpdates) (isE : Bool)
    (h : ups.key_value = none ∨ ups.key_value = some "" ∨ isE = true) :
    updateApiKey env i ups isE =
      Except.ok (dbOrNull (env.updateApiKeyRow i ups)) := by
  unfold updateApiKey
  rcases hv : ups.key_value with _ | v
  · rfl
  · dsimp only
    have hcond : (v != "" && !isE) = false := by
      rcases h with h | h | h
      · rw [hv] at h
        exact absurd h (by simp)
      · rw [hv] at h
        injection h with hv0
        rw [hv0]
        simp
      · rw [h]
        simp
    rw [hcond]
    rfl

/-- C8 amended: every operation degrades to the null/false sentinel (never a
thrown fault) on a lookup miss, missing encryption-key configuration, or a
backend fault — on every path of `createApiKey` and `updateApiKey`, including
pre-encrypted writes — and `getDecryptedApiKey` additionally catches faults
raised by the decrypt collaborator; but `createApiKey` and `updateApiKey`
propagate a fault raised by the encrypt collaborator, and the two inversion
clauses show that a plaintext call reaching a faulting `encryptApiKey` is
the only way either can throw. -/
theorem apiKeys_failure_sentinels (env : Env) :
    (∀ sid, (env.selectDefaultKey sid).error ≠ none →
      getApiKeyByServiceInstance env sid = none) ∧
    (∀ sid, (env.selectDefaultKey sid).data = none →
      getApiKeyByServiceInstance env sid = none) ∧
    (∀ k, env.apiEncryptionKey = none → createApiKey env k false = Except.ok none) ∧
    (∀ k mk c, env.apiEncryptionKey = some mk →
      env.encryptApiKey k.key_value mk = Except.ok c →
      (env.insertApiKey { k with key_value := c }).error ≠ none →
      createApiKey env k false = Except.ok none) ∧
    (∀ k, (env.insertApiKey k).error ≠ none →
      createApiKey env k true = Except.ok none) ∧
    (∀ k isE e, createApiKey env k isE = Except.error e →
      ∃ mk, isE = false ∧ env.apiEncryptionKey = some mk ∧
        env.encryptApiKey k.key_value mk = Except.error e) ∧
    (∀ k mk e, env.apiEncryptionKey = some mk →
      env.encryptApiKey k.key_value mk = Except.error e →
      createApiKey env k false = Except.error e) ∧
    (∀ i ups v, ups.key_value = some v → v ≠ "" → env.apiEncryptionKey = none →
      updateApiKey env i ups false = Except.ok none) ∧
    (∀ i ups v mk e, ups.key_value = some v → v ≠ "" →
      env.apiEncryptionKey = some mk → env.encryptApiKey v mk = Except.error e →
      updateApiKey env i ups false = Except.error e) ∧
    (∀ i ups v mk c, ups.key_value = some v → v ≠ "" →
      env.apiEncryptionKey = some mk → env.encryptApiKey v mk = Except.ok c →
      (env.updateApiKeyRow i { ups with key_value := some c }).error ≠ none →
      updateApiKey env i ups false = Except.ok none) ∧
    (∀ i ups, ups.key_value = none → (env.updateApiKeyRow i ups).error ≠ none →
      updateApiKey env i ups false = Except.ok none) ∧
    (∀ i ups, ups.key_value = some "" → (env.updateApiKeyRow i ups).error ≠ none →
      updateApiKey env i ups false = Except.ok none) ∧
    (∀ i ups, (env.updateApiKeyRow i ups).error ≠ none →
      updateApiKey env i ups true = Except.ok none) ∧
    (∀ i ups isE e, updateApiKey env i ups isE = Except.error e →
      ∃ v mk, ups.key_value = some v ∧ v ≠ "" ∧ isE = false ∧
        env.apiEncryptionKey = some mk ∧
        env.encryptApiKey v mk = Except.error e) ∧
    (∀ i, env.deleteApiKeyRow i ≠ none → deleteApiKey env i = false) ∧
    (∀ i, (env.selectKeyValue i).error ≠ none → getDecryptedApiKey env i = none) ∧
    (∀ i, (env.selectKeyValue i).data = none → getDecryptedApiKey env i = none) ∧
    (∀ i, env.apiEncryptionKey = none → getDecryptedApiKey env i = none) ∧
    (∀ i kv mk e, env.selectKeyValue i = { data := some kv, error := none } →
      env.apiEncryptionKey = some mk → env.decryptApiKey kv mk = Except.error e →
      getDecryptedApiKey env i = none) ∧
    (∀ i, env.rpcIncrementUsage i ≠ none → incrementApiKeyUsage env i = false) := by
  refine ⟨?_, ?_, ?_, ?_, ?_, ?_, ?_, ?_, ?_, ?_, ?_, ?_, ?_, ?_, ?_, ?_, ?_,
    ?_, ?_, ?_⟩
  · intro sid h
    exact dbOrNull_of_error h
  · intro sid h
    exact dbOrNull_of_data_none h
  · intro k h
    rw [createApiKey_false_eq, h]
  · intro k mk c hmk henc hins
    rw [createApiKey_false_eq, hmk]
    dsimp only
    rw [henc]
    dsimp only
    rw [dbOrNull_of_error hins]
  · intro k h
    rw [show createApiKey env k true =
        Except.ok (dbOrNull (env.insertApiKey k)) from rfl,
      dbOrNull_of_error h]
  · intro k isE e h
    cases isE with
    | true => exact absurd h (by simp [createApiKey])
    | false =>
      rw [createApiKey_false_eq] at h
      rcases hmk : env.apiEncryptionKey with _ | mk
      · rw [hmk] at h
        exact absurd h (by simp)
      · rw [hmk] at h
        dsimp only at h
        rcases henc : env.encryptApiKey k.key_value mk with e' | c
        · rw [henc] at h
          dsimp only at h
          injection h with he
          exact ⟨mk, rfl, rfl, by rw [henc, he]⟩
        · rw [henc] at h
          dsimp only at h
          exact absurd h (by simp)
  · intro k mk e hmk henc
    rw [createApiKey_false_eq, hmk]
    dsimp only
    rw [henc]
  · intro i ups v hv hne h
    rw [updateApiKey_false_truthy_eq env i ups v hv hne, h]
  · intro i ups v mk e hv hne hmk henc
    rw [updateApiKey_false_truthy_eq env i ups v hv hne, hmk]
    dsimp only
    rw [henc]
  · intro i ups v mk c hv hne hmk henc hupd
    rw [updateApiKey_false_truthy_eq env i ups v hv hne, hmk]
    dsimp only
    rw [henc]
    dsimp only
    rw [dbOrNull_of_error hupd]
  · intro i ups hv h
    rw [updateApiKey_passthrough_eq env i ups false (Or.inl hv),
      dbOrNull_of_error h]
  · intro i ups hv h
    rw [updateApiKey_passthrough_eq env i ups false (Or.inr (Or.inl hv)),
      dbOrNull_of_error h]
  · intro i ups h
    rw [updateApiKey_passthrough_eq env i ups true (Or.inr (Or.inr rfl)),
      dbOrNull_of_error h]
  · intro i ups isE e h
    rcases hv : ups.key_value with _ | v
    · rw [updateApiKey_passthrough_eq env i ups isE (Or.inl hv)] at h
      exact absurd h (by simp)
    · by_cases hne : v = ""
      · rw [updateApiKey_passthrough_eq env i ups isE
          (Or.inr (Or.inl (hv.trans (by rw [hne]))))] at h
        exact absurd h (by simp)
      · cases isE with
        | true =>
          rw [updateApiKey_passthrough_eq env i ups true (Or.inr (Or.inr rfl))] at h
          exact absurd h (by simp)
        | false =>
          rw [updateApiKey_false_truthy_eq env i ups v hv hne] at h
          rcases hmk : env.apiEncryptionKey with _ | mk
          · rw [hmk] at h
            exact absurd h (by simp)
          · rw [hmk] at h
            dsimp only at h
            rcases henc : env.encryptApiKey v mk with e' | c
            · rw [henc] at h
              dsimp only at h
              injection h with he
              exact ⟨v, mk, rfl, hne, rfl, rfl, by rw [henc, he]⟩
            · rw [henc] at h
              dsimp only at h
              exact absurd h (by simp)
  · intro i h
    rcases hd : env.deleteApiKeyRow i with _ | e
    · exact absurd hd h
    · simp [deleteApiKey, hd]
  · intro i h
    simp [getDecryptedApiKey, dbOrNull_of_error h]
  · intro i h
    simp [getDecryptedApiKey, dbOrNull_of_data_none h]
  · intro i h
    unfold getDecryptedApiKey
    cases dbOrNull (env.selectKeyValue i) with
    | none => rfl
    | some kv => rw [h]
  · intro i kv mk e hsel hmk hdec
    unfold getDecryptedApiKey
    rw [hsel]
    show (match dbOrNull { data := some kv, error := none } with
      | none => none
      | some keyValue =>
        match env.apiEncryptionKey with
        | none => none
        | some masterKey =>
          match env.decryptApiKey keyValue masterKey with
          | Except.error _ => none
          | Except.ok v => some v) = none
    rw [show dbOrNull { data := some kv, error := none } = some kv from rfl]
    rw [hmk]
    dsimp only
    rw [hdec]
  · intro i h
    rcases hd : env.rpcIncrementUsage i with _ | e
    · exact absurd hd h
    · simp [incrementApiKeyUsage, hd]

/-- An update whose `key_value` field is present but empty. -/
def emptyKeyUpdates : ApiKeyUpdates :=
  { service_instance_id := none, is_default := none, key_value := some "" }

/-- An update carrying the plaintext key value `"new"`. -/
def plainUpdates : ApiKeyUpdates :=
  { service_instance_id := none, is_default := none, key_value := some "new" }

/-- An update that does not touch `key_value`. -/
def noKeyUpdates : ApiKeyUpdates :=
  { service_instance_id := some "svc-2", is_default := none, key_value := none }

/-- C8 amended witness: the sentinel clauses of the theorem applied at
concrete environments and inputs, covering both `createApiKey` paths and
every `updateApiKey` path (truthy, absent, empty, pre-encrypted key_value)
against a failing backend. -/
theorem apiKeys_failure_sentinels_witness :
    getApiKeyByServiceInstance errorBackendEnv "svc-1" = none ∧
    createApiKey noMasterKeyEnv newKeyInput false = Except.ok none ∧
    createApiKey errorBackendEnv newKeyInput false = Except.ok none ∧
    createApiKey errorBackendEnv newKeyInput true = Except.ok none ∧
    updateApiKey errorBackendEnv "k1" plainUpdates false = Except.ok none ∧
    updateApiKey errorBackendEnv "k1" noKeyUpdates false = Except.ok none ∧
    updateApiKey errorBackendEnv "k1" emptyKeyUpdates false = Except.ok none ∧
    updateApiKey errorBackendEnv "k1" plainUpdates true = Except.ok none ∧
    deleteApiKey errorBackendEnv "k1" = false ∧
    getDecryptedApiKey noMasterKeyEnv "k1" = none ∧
    incrementApiKeyUsage errorBackendEnv "k1" = false := by
  obtain ⟨e1, -, -, e4, e5, -, -, -, -, e10, e11, e12, e13, -, e15, -, -, -, -,
    e20⟩ := apiKeys_failure_sentinels errorBackendEnv
  obtain ⟨-, -, n3, -, -, -, -, -, -, -, -, -, -, -, -, -, -, n18, -, -⟩ :=
    apiKeys_failure_sentinels noMasterKeyEnv
  exact ⟨e1 "svc-1" (by simp [errorBackendEnv]),
    n3 newKeyInput rfl,
    e4 newKeyInput "master" "enc:plain:master" rfl rfl (by simp [errorBackendEnv]),
    e5 newKeyInput (by simp [errorBackendEnv]),
    e10 "k1" plainUpdates "new" "master" "enc:new:master" rfl (by decide) rfl rfl
      (by simp [errorBackendEnv]),
    e11 "k1" noKeyUpdates rfl (by simp [errorBackendEnv]),
    e12 "k1" emptyKeyUpdates rfl (by simp [errorBackendEnv]),
    e13 "k1" plainUpdates (by simp [errorBackendEnv]),
    e15 "k1" (by simp [errorBackendEnv]),
    n18 "k1" rfl,
    e20 "k1" (by simp [errorBackendEnv])⟩

/-- C9 counterexample: with the master key configured and the caller
asserting plaintext (`isEncrypted = false`), an update that includes
`key_value = ""` writes the empty string to the backing table verbatim — the
echoing backend of `okEnv` returns the written value, and it differs from
the encryption of the supplied value. The source guards encryption with the
JavaScript truthiness test `updates.key_value && !isEncrypted`, which the
empty string fails. -/
theorem updateApiKey_empty_key_value_not_encrypted :
    updateApiKey okEnv "k1" emptyKeyUpdates false =
      Except.ok (some { sampleRow with key_value := "" }) ∧
    okEnv.encryptApiKey "" "master" = Except.ok "enc::master" ∧
    ("" : String) ≠ "enc::master" :=
  ⟨rfl, rfl, by decide⟩

/-- C9 amended: with `isEncrypted = false` and the master key configured,
the `key_value` handed to the backing table is the encryption of the
supplied value — for `createApiKey` with any supplied `key_value`, and for
`updateApiKey` whenever the update includes a non-empty `key_value` (an
empty-string `key_value` is passed through verbatim, because the source
tests the field with JavaScript truthiness). -/
theorem apiKeys_encrypt_on_write (env : Env) (mk : String)
    (hmk : env.apiEncryptionKey = some mk) :
    (∀ (k : NewApiKey) (c : String),
      env.encryptApiKey k.key_value mk = Except.ok c →
      createApiKey env k false =
        Except.ok (dbOrNull (env.insertApiKey { k with key_value := c }))) ∧
    (∀ (i : String) (ups : ApiKeyUpdates) (v c : String),
      ups.key_value = some v → v ≠ "" →
      env.encryptApiKey v mk = Except.ok c →
      updateApiKey env i ups false =
        Except.ok (dbOrNull
          (env.updateApiKeyRow i { ups with key_value := some c }))) := by
  constructor
  · intro k c henc
    rw [createApiKey_false_eq, hmk]
    dsimp only
    rw [henc]
  · intro i ups v c hv hne henc
    rw [updateApiKey_false_truthy_eq env i ups v hv hne, hmk]
    dsimp only
    rw [henc]

/-- C9 amended witness: the theorem applied at the concrete echoing
environment shows the tag-encrypted values being written. -/
theorem apiKeys_encrypt_on_write_witness :
    createApiKey okEnv newKeyInput false =
      Except.ok (some { sampleRow with key_value := "enc:plain:master" }) ∧
    updateApiKey okEnv "k1" plainUpdates false =
      Except.ok (some { sampleRow with key_value := "enc:new:master" }) :=
  ⟨((apiKeys_encrypt_on_write okEnv "master" rfl).1 newKeyInput
      "enc:plain:master" rfl).trans rfl,
   ((apiKeys_encrypt_on_write okEnv "master" rfl).2 "k1" plainUpdates "new"
      "enc:new:master" rfl (by decide) rfl).trans rfl⟩

/-- C10: with `isEncrypted = true`, `createApiKey` and `updateApiKey` hand
the supplied `key_value` to the backing table verbatim, and their outcome is
unchanged when `API_ENCRYPTION_KEY` is replaced by any other value,
including being unset — in particular the write is never rejected for a
missing master key: the result is exactly the backend's response. -/
theorem apiKeys_preEncrypted_independent (env : Env) (mk : Option String) :
    (∀ k : NewApiKey,
      createApiKey env k true = Except.ok (dbOrNull (env.insertApiKey k)) ∧
      createApiKey { env with apiEncryptionKey := mk } k true =
        createApiKey env k true) ∧
    (∀ (i : String) (ups : ApiKeyUpdates),
      updateApiKey env i ups true =
        Except.ok (dbOrNull (env.updateApiKeyRow i ups)) ∧
      updateApiKey { env with apiEncryptionKey := mk } i ups true =
        updateApiKey env i ups true) := by
  constructor
  · intro k
    exact ⟨rfl, rfl⟩
  · intro i ups
    have hup : ∀ env' : Env,
        updateApiKey env' i ups true =
          Except.ok (dbOrNull (env'.updateApiKeyRow i ups)) := by
      intro env'
      unfold updateApiKey
      rcases hv : ups.key_value with _ | v
      · rfl
      · dsimp only
        rw [show (v != "" && !true) = false by simp]
        rfl
    refine ⟨hup env, ?_⟩
    rw [hup env, hup { env with apiEncryptionKey := mk }]

end ApiKeys
